import Mathlib

/-!
Verification of the easy-collimator browser application.

The JavaScript sources are shallowly embedded: every controller's mutable
fields become a Lean structure, every method that the claims mention becomes
a pure Lean function on that structure, and JavaScript numbers are modelled
as rationals.  `Math.round`, `parseInt` (truncation) and the `%` remainder
operator are reproduced exactly on rationals.
-/

namespace EasyCollimator

/-! ## JavaScript numeric primitives -/

/-- JavaScript truncation toward zero, as performed by `parseInt` on a
decimal numeral (e.g. `parseInt("38.5px") = 38`, `parseInt("-3.7") = -3`). -/
def jsTrunc (q : ℚ) : ℤ := if q < 0 then -(⌊-q⌋) else ⌊q⌋

/-- JavaScript `Math.round`: half-way cases round toward positive infinity. -/
def jsRound (q : ℚ) : ℤ := ⌊q + 1/2⌋

/-- JavaScript `%` (remainder): same sign as the dividend,
`a % b = a - b * trunc(a / b)`. -/
def jsMod (a b : ℚ) : ℚ := a - b * (jsTrunc (a / b) : ℚ)

/-! ## Shared wheel-event environment

All the quantities the wheel handlers read from the DOM: container
`offsetWidth`/`offsetHeight` (zoom controller), `clientWidth`/`clientHeight`
(crosshair controller), the container `getBoundingClientRect()` data, the
mouse event fields, and the bounding rectangles of the five control icons.
An icon rectangle of `none` models a missing element or `display: 'none'`,
for which the `isMouseOver...Icon` helpers return `false`. -/

structure IconRect where
  left : ℚ
  right : ℚ
  top : ℚ
  bottom : ℚ
deriving Repr, DecidableEq

structure WheelEnv where
  offsetWidth : ℚ
  offsetHeight : ℚ
  clientWidth : ℚ
  clientHeight : ℚ
  rectLeft : ℚ
  rectTop : ℚ
  rectWidth : ℚ
  rectHeight : ℚ
  clientX : ℚ
  clientY : ℚ
  deltaY : ℚ
  rotationIconRect : Option IconRect
  resetIconRect : Option IconRect
  toggle1IconRect : Option IconRect
  toggle2IconRect : Option IconRect
  toggle3IconRect : Option IconRect
deriving Repr, DecidableEq

/-- `event.clientX >= r.left && event.clientX <= r.right && ...` -/
def isMouseOverIcon (rect : Option IconRect) (env : WheelEnv) : Bool :=
  match rect with
  | none => false
  | some r =>
      decide (r.left ≤ env.clientX) && decide (env.clientX ≤ r.right) &&
      decide (r.top ≤ env.clientY) && decide (env.clientY ≤ r.bottom)

/-! ## ZoomController (src/js/zoom-controller.js) -/

structure ZoomState where
  scale : ℚ
  minScale : ℚ
  maxScale : ℚ
  scaleStep : ℚ
  translateX : ℚ
  translateY : ℚ
  isDragging : Bool
  lastMouseX : ℚ
  lastMouseY : ℚ
  zoomEnabled : Bool
deriving Repr, DecidableEq

/-- The constructor of `ZoomController` (lines 4-19). -/
def ZoomState.init : ZoomState :=
  { scale := 1, minScale := 1, maxScale := 5, scaleStep := 1/10
    translateX := 0, translateY := 0
    isDragging := false, lastMouseX := 0, lastMouseY := 0
    zoomEnabled := false }

/-- `constrainTranslation` (lines 165-180). -/
def constrainTranslation (containerWidth containerHeight : ℚ) (z : ZoomState) :
    ZoomState :=
  let scaledWidth := containerWidth * z.scale
  let scaledHeight := containerHeight * z.scale
  let maxTranslateX := max 0 ((scaledWidth - containerWidth) / 2)
  let maxTranslateY := max 0 ((scaledHeight - containerHeight) / 2)
  { z with
    translateX := max (-maxTranslateX) (min maxTranslateX z.translateX)
    translateY := max (-maxTranslateY) (min maxTranslateY z.translateY) }

/-- The zoom path of `handleWheel` (lines 77-116), executed when
`zoomEnabled` is true.  Returns the state unchanged when the stepped scale
would leave `[minScale, maxScale]`. -/
def ZoomState.handleWheelZoomPath (z : ZoomState) (env : WheelEnv) : ZoomState :=
  let mouseX := env.clientX - env.rectLeft
  let mouseY := env.clientY - env.rectTop
  let zoomDirection : ℚ := if env.deltaY < 0 then 1 else -1
  let zoomAmount := z.scaleStep * zoomDirection
  let newScale := z.scale + zoomAmount
  if newScale < z.minScale ∨ z.maxScale < newScale then z
  else
    let containerCenterX := env.offsetWidth / 2
    let containerCenterY := env.offsetHeight / 2
    let currentMouseX := (mouseX - containerCenterX - z.translateX) / z.scale
    let currentMouseY := (mouseY - containerCenterY - z.translateY) / z.scale
    let z1 := { z with scale := newScale }
    let z2 := { z1 with
                translateX := mouseX - containerCenterX - currentMouseX * z1.scale
                translateY := mouseY - containerCenterY - currentMouseY * z1.scale }
    constrainTranslation env.offsetWidth env.offsetHeight z2

/-- Effect of `handleWheel` (lines 67-117) on the zoom controller's own
state.  When `zoomEnabled` is false the method only forwards the event to
the crosshair controller and changes nothing here; the combined behaviour
is modelled by `combinedHandleWheel` below. -/
def ZoomState.handleWheel (z : ZoomState) (env : WheelEnv) : ZoomState :=
  if z.zoomEnabled then z.handleWheelZoomPath env else z

/-- `handleWheelForCrosshair` (lines 327-367), transcribed separately from
its own source text (the source duplicates the zoom math with the container
center in place of the mouse position). -/
def ZoomState.handleWheelForCrosshair (z : ZoomState) (env : WheelEnv) :
    ZoomState :=
  let zoomDirection : ℚ := if env.deltaY < 0 then 1 else -1
  let zoomAmount := z.scaleStep * zoomDirection
  let newScale := z.scale + zoomAmount
  if newScale < z.minScale ∨ z.maxScale < newScale then z
  else
    let centerX := env.offsetWidth / 2
    let centerY := env.offsetHeight / 2
    let containerCenterX := env.offsetWidth / 2
    let containerCenterY := env.offsetHeight / 2
    let currentCenterX := (centerX - containerCenterX - z.translateX) / z.scale
    let currentCenterY := (centerY - containerCenterY - z.translateY) / z.scale
    let z1 := { z with scale := newScale }
    let z2 := { z1 with
                translateX := centerX - containerCenterX - currentCenterX * z1.scale
                translateY := centerY - containerCenterY - currentCenterY * z1.scale }
    constrainTranslation env.offsetWidth env.offsetHeight z2

/-- `resetZoom` (lines 199-205). -/
def ZoomState.resetZoom (z : ZoomState) : ZoomState :=
  { z with scale := 1, translateX := 0, translateY := 0 }

/-- `setZoom` (lines 210-239). -/
def ZoomState.setZoom (z : ZoomState) (env : WheelEnv) (scaleArg : ℚ)
    (centerX centerY : Option ℚ) : ZoomState :=
  let scale := max z.minScale (min z.maxScale scaleArg)
  match centerX, centerY with
  | some mouseX, some mouseY =>
      let containerCenterX := env.offsetWidth / 2
      let containerCenterY := env.offsetHeight / 2
      let currentMouseX := (mouseX - containerCenterX - z.translateX) / z.scale
      let currentMouseY := (mouseY - containerCenterY - z.translateY) / z.scale
      let z1 := { z with scale := scale }
      let z2 := { z1 with
                  translateX := mouseX - containerCenterX - currentMouseX * z1.scale
                  translateY := mouseY - containerCenterY - currentMouseY * z1.scale }
      constrainTranslation env.offsetWidth env.offsetHeight z2
  | _, _ => { z with scale := scale }

/-- `zoomIn` (lines 244-247). -/
def ZoomState.zoomIn (z : ZoomState) (env : WheelEnv)
    (centerX centerY : Option ℚ) : ZoomState :=
  z.setZoom env (z.scale + z.scaleStep) centerX centerY

/-- `zoomOut` (lines 252-255). -/
def ZoomState.zoomOut (z : ZoomState) (env : WheelEnv)
    (centerX centerY : Option ℚ) : ZoomState :=
  z.setZoom env (z.scale - z.scaleStep) centerX centerY

/-- `handleMouseMove` (lines 134-148). -/
def ZoomState.handleMouseMove (z : ZoomState) (env : WheelEnv) : ZoomState :=
  if z.isDragging then
    let deltaX := env.clientX - z.lastMouseX
    let deltaY := env.clientY - z.lastMouseY
    let z1 := { z with translateX := z.translateX + deltaX
                       translateY := z.translateY + deltaY }
    let z2 := constrainTranslation env.offsetWidth env.offsetHeight z1
    { z2 with lastMouseX := env.clientX, lastMouseY := env.clientY }
  else z

/-- `enableZoom` (lines 298-300). -/
def ZoomState.enableZoom (z : ZoomState) : ZoomState :=
  { z with zoomEnabled := true }

/-- `disableZoom` (lines 305-307). -/
def ZoomState.disableZoom (z : ZoomState) : ZoomState :=
  { z with zoomEnabled := false }

/-! Operations of claim C1: all `ZoomController` entry points that touch the
scale (`setZoomLimits` excluded, as the claim assumes it is never called).
`enableZoom`/`disableZoom` are included so that the `handleWheel` zoom path
is actually reachable in the modelled sequences. -/

inductive ZoomOp where
  | wheel (env : WheelEnv)
  | wheelForCrosshair (env : WheelEnv)
  | setZoomTo (env : WheelEnv) (scale : ℚ) (centerX centerY : Option ℚ)
  | zoomInStep (env : WheelEnv) (centerX centerY : Option ℚ)
  | zoomOutStep (env : WheelEnv) (centerX centerY : Option ℚ)
  | resetZoomOp
  | enableZoomOp
  | disableZoomOp

def ZoomOp.apply (op : ZoomOp) (z : ZoomState) : ZoomState :=
  match op with
  | .wheel env => z.handleWheel env
  | .wheelForCrosshair env => z.handleWheelForCrosshair env
  | .setZoomTo env s cx cy => z.setZoom env s cx cy
  | .zoomInStep env cx cy => z.zoomIn env cx cy
  | .zoomOutStep env cx cy => z.zoomOut env cx cy
  | .resetZoomOp => z.resetZoom
  | .enableZoomOp => z.enableZoom
  | .disableZoomOp => z.disableZoom

def runZoomOps (ops : List ZoomOp) (z : ZoomState) : ZoomState :=
  ops.foldl (fun s op => op.apply s) z

/-! ## CrosshairController (src/unnamed/part_002) -/

/-- Percentages of the camera-view height (constructor lines 19-23). -/
def circle1Percentage : ℚ := 77/100
def circle2Percentage : ℚ := 385/1000
def circle3Percentage : ℚ := 1925/10000

/-- `circle1SizeControl.marginFromCircle2` (line 43). -/
def circle1MarginFromCircle2 : ℚ := 20
/-- `circle3SizeControl.marginFromCircle2` (line 54); also used for the
circle_2 lower limit in `updateCircleSizes`. -/
def circle3MarginFromCircle2 : ℚ := 15
/-- All three circles use a 2px border (lines 32, 42, 53). -/
def circleBorderWidth : ℚ := 2
/-- `rotationStep` (line 75): 1.25 degrees per scroll step. -/
def rotationStep : ℚ := 5/4
/-- `fineRotationStep` (line 76): 1 degree per step with the fine-control
button held. -/
def fineRotationStep : ℚ := 1

/-- One `circleNSizeControl` record (constructor lines 26-55); the
`step`/`fineStep`/border/margin members are constants and kept global. -/
structure CircleCtl where
  currentSize : ℚ
  minSize : ℚ
  maxSize : ℚ
deriving Repr, DecidableEq

/-- The mutable fields of `CrosshairController`.  `rendered1/2/3` model the
`style.width` of the three circle DOM elements (`none` = never set, so
`parseInt` yields `NaN` and the `|| default` fallback fires). -/
structure CrosshairState where
  isVisible : Bool
  circle1Visible : Bool
  circle2Visible : Bool
  circle3Visible : Bool
  isMiddleMouseDown : Bool
  centerOffsetX : ℚ
  centerOffsetY : ℚ
  circle1 : CircleCtl
  circle2 : CircleCtl
  circle3 : CircleCtl
  rendered1 : Option ℚ
  rendered2 : Option ℚ
  rendered3 : Option ℚ
  rotationAngle : ℚ
deriving Repr, DecidableEq

/-- The constructor (lines 4-77): sizes 0 until first layout, circle_1
visible, circles 2 and 3 hidden, rotation 45 degrees. -/
def CrosshairState.init : CrosshairState :=
  { isVisible := false
    circle1Visible := true, circle2Visible := false, circle3Visible := false
    isMiddleMouseDown := false
    centerOffsetX := 0, centerOffsetY := 0
    circle1 := { currentSize := 0, minSize := 50, maxSize := 0 }
    circle2 := { currentSize := 0, minSize := 20, maxSize := 0 }
    circle3 := { currentSize := 0, minSize := 20, maxSize := 0 }
    rendered1 := none, rendered2 := none, rendered3 := none
    rotationAngle := 45 }

/-- `getCircle1Radius` (lines 355-364): `parseInt(style.width) || 140`,
halved. -/
def CrosshairState.getCircle1Radius (c : CrosshairState) : ℚ :=
  match c.rendered1 with
  | none => 140 / 2
  | some w => (if jsTrunc w = 0 then (140 : ℚ) else (jsTrunc w : ℚ)) / 2

/-- `getCircle2Radius` (lines 369-378): `parseInt(style.width) || 70`. -/
def CrosshairState.getCircle2Radius (c : CrosshairState) : ℚ :=
  match c.rendered2 with
  | none => 70 / 2
  | some w => (if jsTrunc w = 0 then (70 : ℚ) else (jsTrunc w : ℚ)) / 2

/-- `getCircle3Radius` (lines 383-392): `parseInt(style.width) || 35`. -/
def CrosshairState.getCircle3Radius (c : CrosshairState) : ℚ :=
  match c.rendered3 with
  | none => 35 / 2
  | some w => (if jsTrunc w = 0 then (35 : ℚ) else (jsTrunc w : ℚ)) / 2

/-- `updateCircleSizes` (lines 135-170): first-time size initialization from
the container height, then limit recomputation (current sizes preserved). -/
def updateCircleSizes (W H : ℚ) (c : CrosshairState) : CrosshairState :=
  if 0 < H then
    let circle1Size : ℚ := (jsRound (H * circle1Percentage) : ℚ)
    let circle2Size : ℚ := (jsRound (H * circle2Percentage) : ℚ)
    let circle3Size : ℚ := (jsRound (H * circle3Percentage) : ℚ)
    let c :=
      if c.circle1.currentSize = 0 then
        { c with circle1 := { c.circle1 with currentSize := circle1Size }
                 rendered1 := some circle1Size }
      else c
    let c :=
      if c.circle2.currentSize = 0 then
        { c with circle2 := { c.circle2 with currentSize := circle2Size }
                 rendered2 := some circle2Size }
      else c
    let c :=
      if c.circle3.currentSize = 0 then
        { c with circle3 := { c.circle3 with currentSize := circle3Size }
                 rendered3 := some circle3Size }
      else c
    let c :=
      { c with circle1 :=
          { c.circle1 with
            minSize := max 50 (c.circle2.currentSize + circle1MarginFromCircle2)
            maxSize := min W H * (98/100) } }
    let c :=
      { c with circle2 :=
          { c.circle2 with
            minSize := max (circleBorderWidth * 10)
              (c.circle3.currentSize + circle3MarginFromCircle2)
            maxSize := c.circle1.currentSize - circle1MarginFromCircle2 } }
    { c with circle3 :=
        { c.circle3 with
          minSize := circleBorderWidth * 10
          maxSize := c.circle2.currentSize - circle3MarginFromCircle2 } }
  else c

/-- The boundary-derived maximum diameter shared by the three size-change
handlers: distance from the (offset) center to the nearest container edge,
with a 5px safety margin, doubled. -/
def boundaryMaxDiameter (W H : ℚ) (c : CrosshairState) : ℚ :=
  let currentCenterX := W / 2 + c.centerOffsetX
  let currentCenterY := H / 2 + c.centerOffsetY
  let maxRadiusX := min (currentCenterX - 5) (W - currentCenterX - 5)
  let maxRadiusY := min (currentCenterY - 5) (H - currentCenterY - 5)
  let maxRadius := max 0 (min maxRadiusX maxRadiusY)
  maxRadius * 2

/-- `handleCircle2SizeChange` (lines 397-433).  Note: unlike the circle_1
and circle_3 handlers it does not call `updateCircleSizes` afterwards. -/
def handleCircle2SizeChange (W H deltaY : ℚ) (c : CrosshairState) :
    CrosshairState :=
  let direction : ℚ := if deltaY < 0 then 1 else -1
  let stepSize : ℚ := if c.isMiddleMouseDown then 1 else 5
  let newSize := c.circle2.currentSize + stepSize * direction
  let boundaryConstrainedMaxSize :=
    min c.circle2.maxSize (boundaryMaxDiameter W H c)
  let clampedSize :=
    max c.circle2.minSize (min boundaryConstrainedMaxSize newSize)
  if clampedSize ≠ c.circle2.currentSize then
    { c with circle2 := { c.circle2 with currentSize := clampedSize }
             rendered2 := some clampedSize }
  else c

/-- `handleCircle1SizeChange` (lines 438-474); ends with a
`updateCircleSizes` call when the size changed. -/
def handleCircle1SizeChange (W H deltaY : ℚ) (c : CrosshairState) :
    CrosshairState :=
  let direction : ℚ := if 0 < deltaY then -1 else 1
  let stepSize : ℚ := if c.isMiddleMouseDown then 1 else 5
  let newSize := c.circle1.currentSize + direction * stepSize
  let boundaryConstrainedMaxSize :=
    min c.circle1.maxSize (boundaryMaxDiameter W H c)
  let clampedSize :=
    max c.circle1.minSize (min boundaryConstrainedMaxSize newSize)
  if clampedSize ≠ c.circle1.currentSize then
    updateCircleSizes W H
      { c with circle1 := { c.circle1 with currentSize := clampedSize }
               rendered1 := some clampedSize }
  else c

/-- `handleCircle3SizeChange` (lines 508-547); ends with a
`updateCircleSizes` call when the size changed. -/
def handleCircle3SizeChange (W H deltaY : ℚ) (c : CrosshairState) :
    CrosshairState :=
  let direction : ℚ := if deltaY < 0 then 1 else -1
  let stepSize : ℚ := if c.isMiddleMouseDown then 1 else 5
  let newSize := c.circle3.currentSize + stepSize * direction
  let boundaryConstrainedMaxSize :=
    min c.circle3.maxSize (boundaryMaxDiameter W H c)
  let clampedSize :=
    max c.circle3.minSize (min boundaryConstrainedMaxSize newSize)
  if clampedSize ≠ c.circle3.currentSize then
    updateCircleSizes W H
      { c with circle3 := { c.circle3 with currentSize := clampedSize }
               rendered3 := some clampedSize }
  else c

/-- `resetCirclesToDefault` (lines 578-631). -/
def resetCirclesToDefault (W H : ℚ) (c : CrosshairState) : CrosshairState :=
  if 0 < H then
    let circle1Size : ℚ := (jsRound (H * circle1Percentage) : ℚ)
    let circle2Size : ℚ := (jsRound (H * circle2Percentage) : ℚ)
    let circle3Size : ℚ := (jsRound (H * circle3Percentage) : ℚ)
    let c :=
      { c with
        circle1 := { c.circle1 with currentSize := circle1Size }
        circle2 := { c.circle2 with currentSize := circle2Size }
        circle3 := { c.circle3 with currentSize := circle3Size }
        circle1Visible := true, circle2Visible := false, circle3Visible := false
        rendered1 := some circle1Size
        rendered2 := some circle2Size
        rendered3 := some circle3Size }
    let c := updateCircleSizes W H c
    { c with rotationAngle := 45, centerOffsetX := 0, centerOffsetY := 0 }
  else c

/-- `handleRotation` (lines 636-649). -/
def handleRotation (deltaY : ℚ) (c : CrosshairState) : CrosshairState :=
  let direction : ℚ := if 0 < deltaY then 1 else -1
  let stepSize := if c.isMiddleMouseDown then fineRotationStep else rotationStep
  let a := c.rotationAngle + direction * stepSize
  { c with rotationAngle := jsMod (jsMod a 360 + 360) 360 }

/-! ### The wheel-event dispatch (`handleWheelEvent`, lines 175-252) -/

/-- What a wheel event ended up doing. -/
inductive WheelAction where
  | directZoom
  | ignored
  | rotate
  | resize1
  | resize2
  | resize3
  | iconBlocked
  | zoomDelegated
deriving Repr, DecidableEq

def WheelAction.isResize : WheelAction → Bool
  | .resize1 => true
  | .resize2 => true
  | .resize3 => true
  | _ => false

/-- `Math.sqrt d2 <= r` for `d2 >= 0`, expressed without square roots:
the comparison holds exactly when `r` is nonnegative and `d2 ≤ r ^ 2`. -/
def sqrtLE (d2 r : ℚ) : Bool := decide (0 ≤ r) && decide (d2 ≤ r ^ 2)

/-- Squared distance from the mouse position to the (offset) crosshair
center, as computed in `handleWheelEvent` lines 222-232. -/
def mouseDistSq (env : WheelEnv) (c : CrosshairState) : ℚ :=
  let mouseX := env.clientX - env.rectLeft
  let mouseY := env.clientY - env.rectTop
  let centerX := env.rectWidth / 2 + c.centerOffsetX
  let centerY := env.rectHeight / 2 + c.centerOffsetY
  (mouseX - centerX) ^ 2 + (mouseY - centerY) ^ 2

/-- `handleWheelEvent` (lines 175-252), together with the zoom delegation
(`handleZoomEvent`, lines 760-765, which calls
`zoomController.handleWheelForCrosshair`).  Returns the updated crosshair
state, the updated zoom state, and which action was taken. -/
def handleWheelEvent (env : WheelEnv) (c : CrosshairState) (z : ZoomState) :
    CrosshairState × ZoomState × WheelAction :=
  if c.isVisible = false then (c, z, .ignored)
  else if isMouseOverIcon env.rotationIconRect env then
    (handleRotation env.deltaY c, z, .rotate)
  else if isMouseOverIcon env.toggle1IconRect env && c.circle1Visible then
    (handleCircle1SizeChange env.clientWidth env.clientHeight env.deltaY c,
     z, .resize1)
  else if isMouseOverIcon env.toggle2IconRect env && c.circle2Visible then
    (handleCircle2SizeChange env.clientWidth env.clientHeight env.deltaY c,
     z, .resize2)
  else if isMouseOverIcon env.toggle3IconRect env && c.circle3Visible then
    (handleCircle3SizeChange env.clientWidth env.clientHeight env.deltaY c,
     z, .resize3)
  else if isMouseOverIcon env.toggle1IconRect env ||
          isMouseOverIcon env.toggle2IconRect env ||
          isMouseOverIcon env.toggle3IconRect env then
    (c, z, .iconBlocked)
  else if isMouseOverIcon env.resetIconRect env then
    (c, z, .iconBlocked)
  else
    let d2 := mouseDistSq env c
    if sqrtLE d2 c.getCircle3Radius && c.circle3Visible then
      (handleCircle3SizeChange env.clientWidth env.clientHeight env.deltaY c,
       z, .resize3)
    else if sqrtLE d2 c.getCircle2Radius && c.circle2Visible then
      (handleCircle2SizeChange env.clientWidth env.clientHeight env.deltaY c,
       z, .resize2)
    else if sqrtLE d2 c.getCircle1Radius && c.circle1Visible then
      (handleCircle1SizeChange env.clientWidth env.clientHeight env.deltaY c,
       z, .resize1)
    else
      (c, z.handleWheelForCrosshair env, .zoomDelegated)

/-- `true` when the pointer is over one of the five control icons
(`isMouseOverAnyIcon`, lines 342-350). -/
def overAnyIcon (env : WheelEnv) : Bool :=
  isMouseOverIcon env.rotationIconRect env ||
  isMouseOverIcon env.resetIconRect env ||
  isMouseOverIcon env.toggle1IconRect env ||
  isMouseOverIcon env.toggle2IconRect env ||
  isMouseOverIcon env.toggle3IconRect env

/-- `true` when the pointer distance from the (offset) crosshair center is
within the radius of some visible circle. -/
def insideSomeVisibleCircle (env : WheelEnv) (c : CrosshairState) : Bool :=
  let d2 := mouseDistSq env c
  (sqrtLE d2 c.getCircle3Radius && c.circle3Visible) ||
  (sqrtLE d2 c.getCircle2Radius && c.circle2Visible) ||
  (sqrtLE d2 c.getCircle1Radius && c.circle1Visible)

/-- The container's wheel listener (`ZoomController.handleWheel`,
lines 67-117): zoom directly when `zoomEnabled`, otherwise forward the
event to the crosshair controller (assumed wired, as in the application). -/
def combinedHandleWheel (env : WheelEnv) (c : CrosshairState) (z : ZoomState) :
    CrosshairState × ZoomState × WheelAction :=
  if z.zoomEnabled then (c, z.handleWheelZoomPath env, .directZoom)
  else handleWheelEvent env c z

/-! Operations of claim C2: the `CrosshairController` entry points that
change circle sizes. -/

inductive CircleOp where
  | circle1Change (W H deltaY : ℚ)
  | circle2Change (W H deltaY : ℚ)
  | circle3Change (W H deltaY : ℚ)
  | resize (W H : ℚ)
  | resetDefaults (W H : ℚ)

def CircleOp.apply (op : CircleOp) (c : CrosshairState) : CrosshairState :=
  match op with
  | .circle1Change W H deltaY => handleCircle1SizeChange W H deltaY c
  | .circle2Change W H deltaY => handleCircle2SizeChange W H deltaY c
  | .circle3Change W H deltaY => handleCircle3SizeChange W H deltaY c
  | .resize W H => updateCircleSizes W H c
  | .resetDefaults W H => resetCirclesToDefault W H c

def runCircleOps (ops : List CircleOp) (c : CrosshairState) : CrosshairState :=
  ops.foldl (fun s op => op.apply s) c

/-! ## WebcamManager (src/js/webcam-manager.js) -/

structure MediaDevice where
  deviceId : String
  label : String
  kind : String
deriving Repr, DecidableEq

inductive JsError where
  /-- A thrown error identified by its `name` (DOM exceptions, `Error`). -/
  | err (name : String)
  /-- `TypeError` raised by calling a property that is not a function. -/
  | typeError (message : String)
deriving Repr, DecidableEq

/-- The browser facilities `loadAvailableCameras` interacts with. -/
structure CameraEnv where
  mediaDevicesSupported : Bool
  /-- Result of the permission-priming `getUserMedia` call (the temporary
  stream is immediately stopped, so only success/failure matters). -/
  getUserMediaResult : Except JsError Unit
  /-- Result of `navigator.mediaDevices.enumerateDevices()`. -/
  enumerateResult : Except JsError (List MediaDevice)
deriving Repr

/-- The method names defined on the `WebcamManager` class in
src/js/webcam-manager.js.  A call to any other name on `this` raises a
`TypeError` in JavaScript. -/
def webcamManagerMethods : List String :=
  ["constructor", "initialize", "loadAvailableCameras", "loadCamerasFallback",
   "setupVideoElement", "startWebcam", "stopWebcam",
   "updateConstraintsForQuality", "onVideoLoaded", "handleError",
   "getErrorMessage", "getVideoDimensions", "isSupported", "getCameras",
   "getCurrentCamera", "getIsActive"]

/-- `loadCamerasFallback` (lines 84-107): enumerate without permission, and
fall back to a synthetic default entry. -/
def loadCamerasFallback (env : CameraEnv) : List MediaDevice :=
  match env.enumerateResult with
  | .ok devices =>
      let videoDevices := devices.filter (fun d => d.kind == "videoinput")
      if videoDevices.length > 0 then videoDevices
      else [{ deviceId := "default", label := "Default Camera (Permission Required)"
              kind := "videoinput" }]
  | .error _ =>
      [{ deviceId := "default", label := "Default Camera (Permission Required)"
         kind := "videoinput" }]

/-- `loadAvailableCameras` (lines 38-79).  The catch block executes
`return await this.loadCamerasWithFallback(error)`; that property is not a
method of the class, so the call raises a `TypeError` which propagates in
place of the original error. -/
def loadAvailableCameras (env : CameraEnv) :
    Except JsError (List MediaDevice) :=
  let tryBlock : Except JsError (List MediaDevice) :=
    if env.mediaDevicesSupported = false then
      .error (.err "Error")
    else
      match env.getUserMediaResult with
      | .error e => .error e
      | .ok _ =>
          match env.enumerateResult with
          | .error e => .error e
          | .ok devices =>
              let availableCameras := devices.filter (fun d => d.kind == "videoinput")
              if availableCameras.length = 0 then
                .ok [{ deviceId := "default", label := "Default Camera"
                       kind := "videoinput" }]
              else .ok availableCameras
  match tryBlock with
  | .ok cams => .ok cams
  | .error _ =>
      if "loadCamerasWithFallback" ∈ webcamManagerMethods then
        .ok (loadCamerasFallback env)
      else
        .error (.typeError "this.loadCamerasWithFallback is not a function")

/-- `getErrorMessage` (lines 233-245). -/
def getErrorMessage (name : String) : String :=
  if name = "NotFoundError" ∨ name = "DevicesNotFoundError" then
    "No camera found. Please connect a camera and try again."
  else if name = "NotAllowedError" ∨ name = "PermissionDeniedError" then
    "Camera access denied. Please allow camera permission and refresh the page."
  else if name = "NotSupportedError" then
    "Camera not supported by this browser."
  else if name = "NotReadableError" ∨ name = "TrackStartError" then
    "Camera is already in use by another application."
  else
    "Unknown camera error occurred."

structure MediaTrack where
  id : Nat
  stopped : Bool
deriving Repr, DecidableEq

/-- The `WebcamManager` fields `stopWebcam` touches. -/
structure WebcamState where
  stream : Option (List MediaTrack)
  srcObject : Option (List MediaTrack)
  isActive : Bool
deriving Repr, DecidableEq

/-- `stopWebcam` (lines 172-188).  The third component records the tracks
of the previously held stream after `track.stop()` was called on each. -/
def stopWebcam (s : WebcamState) : Bool × WebcamState × List MediaTrack :=
  match s.stream with
  | some tracks =>
      let stoppedTracks := tracks.map fun t => { t with stopped := true }
      (true, { stream := none, srcObject := none, isActive := false },
       stoppedTracks)
  | none =>
      (true, { stream := none, srcObject := none, isActive := false }, [])

/-! ## ExposureController (src/unnamed/part_003) -/

/-- `this.settings` (constructor lines 8-15). -/
structure ExposureSettings where
  exposure : ℚ
  brightness : ℚ
  contrast : ℚ
  saturation : ℚ
  focus : ℚ
  autoExposure : Bool
deriving Repr, DecidableEq

def ExposureSettings.default : ExposureSettings :=
  { exposure := 0, brightness := 0, contrast := 100, saturation := 100
    focus := 50, autoExposure := false }

/-- `setExposure` (lines 121-131): clamp to [-3, 3] (`parseFloat` is the
identity on numbers), then drop out of auto mode. -/
def setExposure (value : ℚ) (s : ExposureSettings) : ExposureSettings :=
  let s := { s with exposure := max (-3) (min 3 value) }
  if s.autoExposure then { s with autoExposure := false } else s

/-- `setBrightness` (lines 136-146): `parseInt` then clamp to [-100, 100]. -/
def setBrightness (value : ℚ) (s : ExposureSettings) : ExposureSettings :=
  let s := { s with brightness := max (-100) (min 100 (jsTrunc value : ℚ)) }
  if s.autoExposure then { s with autoExposure := false } else s

/-- `setContrast` (lines 151-161): `parseInt` then clamp to [0, 200]. -/
def setContrast (value : ℚ) (s : ExposureSettings) : ExposureSettings :=
  let s := { s with contrast := max 0 (min 200 (jsTrunc value : ℚ)) }
  if s.autoExposure then { s with autoExposure := false } else s

/-- `setSaturation` (lines 166-170): `parseInt` then clamp to [0, 200]
(does not leave auto mode). -/
def setSaturation (value : ℚ) (s : ExposureSettings) : ExposureSettings :=
  { s with saturation := max 0 (min 200 (jsTrunc value : ℚ)) }

/-- `setFocus` (lines 175-205): `parseInt` then clamp to [0, 100]; the
hardware focus attempts do not touch the stored settings. -/
def setFocus (value : ℚ) (s : ExposureSettings) : ExposureSettings :=
  { s with focus := max 0 (min 100 (jsTrunc value : ℚ)) }

/-- `resetExposure` (lines 279-292). -/
def resetExposure (_s : ExposureSettings) : ExposureSettings :=
  { exposure := 0, brightness := 0, contrast := 100, saturation := 100
    focus := 50, autoExposure := false }

/-- `performSoftwareAutoAdjustment` (lines 354-366). -/
def performSoftwareAutoAdjustment (s : ExposureSettings) : ExposureSettings :=
  { s with exposure := 4/5, brightness := 15, contrast := 125, saturation := 90 }

/-- `setAutoExposure` (lines 297-349): store the flag; when enabling, the
software adjustment always runs (hardware constraint attempts are
side-effect free on the settings). -/
def setAutoExposure (enabled : Bool) (s : ExposureSettings) : ExposureSettings :=
  let s := { s with autoExposure := enabled }
  if enabled then performSoftwareAutoAdjustment s else s

/-- `intelligentExposureAdjustment` (lines 446-478), the periodic automatic
adjustment driven by frame analysis (`avgBrightness`, `darkRatio`,
`brightRatio` are whatever the analysis produced). -/
def intelligentExposureAdjustment (avgBrightness darkRatio brightRatio : ℚ)
    (s : ExposureSettings) : ExposureSettings :=
  let s :=
    if avgBrightness < 80 ∧ 6/10 < darkRatio then
      { s with exposure := min (5/2) (s.exposure + 2/10)
               brightness := min 80 (s.brightness + 10) }
    else if 180 < avgBrightness ∧ 4/10 < brightRatio then
      { s with exposure := max (-(3/2)) (s.exposure - 2/10)
               brightness := max (-40) (s.brightness - 10) }
    else s
  if 7/10 < darkRatio then
    { s with contrast := min 150 (s.contrast + 5) }
  else if 5/10 < brightRatio then
    { s with contrast := max 100 (s.contrast - 5) }
  else s

/-- The partial settings object passed to `applySettings`: `none` models an
absent key. -/
structure ApplyArgs where
  exposure : Option ℚ
  brightness : Option ℚ
  contrast : Option ℚ
  saturation : Option ℚ
  focus : Option ℚ
  autoExposure : Option Bool
deriving Repr, DecidableEq

/-- `applySettings` (lines 526-530): `this.settings = {...this.settings,
...settings}` — a plain merge, with no clamping of the incoming values. -/
def applySettings (args : ApplyArgs) (s : ExposureSettings) : ExposureSettings :=
  { exposure := args.exposure.getD s.exposure
    brightness := args.brightness.getD s.brightness
    contrast := args.contrast.getD s.contrast
    saturation := args.saturation.getD s.saturation
    focus := args.focus.getD s.focus
    autoExposure := args.autoExposure.getD s.autoExposure }

/-! Operations of claim C6: the public `ExposureController` operations that
touch the stored settings. -/

inductive ExposureOp where
  | setExposureOp (value : ℚ)
  | setBrightnessOp (value : ℚ)
  | setContrastOp (value : ℚ)
  | setSaturationOp (value : ℚ)
  | setFocusOp (value : ℚ)
  | resetExposureOp
  | setAutoExposureOp (enabled : Bool)
  | autoAdjustOp (avgBrightness darkRatio brightRatio : ℚ)
  | applySettingsOp (args : ApplyArgs)
  | increaseExposureOp (step : ℚ)
  | decreaseExposureOp (step : ℚ)
  | increaseBrightnessOp (step : ℚ)
  | decreaseBrightnessOp (step : ℚ)

def ExposureOp.apply (op : ExposureOp) (s : ExposureSettings) :
    ExposureSettings :=
  match op with
  | .setExposureOp v => setExposure v s
  | .setBrightnessOp v => setBrightness v s
  | .setContrastOp v => setContrast v s
  | .setSaturationOp v => setSaturation v s
  | .setFocusOp v => setFocus v s
  | .resetExposureOp => resetExposure s
  | .setAutoExposureOp b => setAutoExposure b s
  | .autoAdjustOp a d b => intelligentExposureAdjustment a d b s
  | .applySettingsOp args => applySettings args s
  | .increaseExposureOp step => setExposure (s.exposure + step) s
  | .decreaseExposureOp step => setExposure (s.exposure - step) s
  | .increaseBrightnessOp step => setBrightness (s.brightness + step) s
  | .decreaseBrightnessOp step => setBrightness (s.brightness - step) s

def runExposureOps (ops : List ExposureOp) (s : ExposureSettings) :
    ExposureSettings :=
  ops.foldl (fun s op => op.apply s) s

/-- All stored settings within their per-control bounds. -/
def settingsInBounds (s : ExposureSettings) : Prop :=
  -3 ≤ s.exposure ∧ s.exposure ≤ 3 ∧
  -100 ≤ s.brightness ∧ s.brightness ≤ 100 ∧
  0 ≤ s.contrast ∧ s.contrast ≤ 200 ∧
  0 ≤ s.saturation ∧ s.saturation ≤ 200 ∧
  0 ≤ s.focus ∧ s.focus ≤ 100

instance (s : ExposureSettings) : Decidable (settingsInBounds s) := by
  unfold settingsInBounds; infer_instance

/-! ## localStorage mirroring (claim C8)

`saveSettings`/`loadSettings` (lines 614-637) go through
`JSON.stringify`/`JSON.parse`; per the JSON specification this string
round-trip is the identity on finite numbers and booleans, so the store is
modelled as holding the parsed JSON value directly. -/

inductive Json where
  | num (q : ℚ)
  | bool (b : Bool)
  | str (s : String)
  | obj (fields : List (String × Json))
  | arr (elems : List Json)
  | null

/-- The browser's localStorage, keyed by string. -/
def Storage := String → Option Json

def Storage.setItem (store : Storage) (key : String) (value : Json) : Storage :=
  fun k => if k = key then some value else store k

/-- `JSON.stringify(this.settings)` builds an object with the constructor's
key order. -/
def settingsToJson (s : ExposureSettings) : Json :=
  .obj [("exposure", .num s.exposure), ("brightness", .num s.brightness),
        ("contrast", .num s.contrast), ("saturation", .num s.saturation),
        ("focus", .num s.focus), ("autoExposure", .bool s.autoExposure)]

def jsonLookupNum (fields : List (String × Json)) (key : String) : Option ℚ :=
  match fields.lookup key with
  | some (.num q) => some q
  | _ => none

def jsonLookupBool (fields : List (String × Json)) (key : String) : Option Bool :=
  match fields.lookup key with
  | some (.bool b) => some b
  | _ => none

/-- The fields the parsed JSON object contributes to the
`{...this.settings, ...settings}` merge. -/
def argsOfJson (j : Json) : ApplyArgs :=
  match j with
  | .obj fields =>
      { exposure := jsonLookupNum fields "exposure"
        brightness := jsonLookupNum fields "brightness"
        contrast := jsonLookupNum fields "contrast"
        saturation := jsonLookupNum fields "saturation"
        focus := jsonLookupNum fields "focus"
        autoExposure := jsonLookupBool fields "autoExposure" }
  | _ => { exposure := none, brightness := none, contrast := none
           saturation := none, focus := none, autoExposure := none }

/-- `saveSettings` (lines 614-620). -/
def saveSettings (s : ExposureSettings) (store : Storage) : Storage :=
  store.setItem "webcamExposureSettings" (settingsToJson s)

/-- `loadSettings` (lines 625-637): `getItem`, parse, `applySettings`,
return `true`; `false` when nothing is stored. -/
def loadSettings (store : Storage) (s : ExposureSettings) :
    Bool × ExposureSettings :=
  match store "webcamExposureSettings" with
  | some j => (true, applySettings (argsOfJson j) s)
  | none => (false, s)

/-! ## Concrete instances used by counterexamples and witnesses -/

/-- The crosshair state produced by `updateCircleSizes` on a fresh
controller in a 100x100 container: circle_1 77px, circle_2 39px,
circle_3 19px, circle_2 limits [34, 57]. -/
def S1 : CrosshairState :=
  { isVisible := false
    circle1Visible := true, circle2Visible := false, circle3Visible := false
    isMiddleMouseDown := false
    centerOffsetX := 0, centerOffsetY := 0
    circle1 := { currentSize := 77, minSize := 59, maxSize := 98 }
    circle2 := { currentSize := 39, minSize := 34, maxSize := 57 }
    circle3 := { currentSize := 19, minSize := 20, maxSize := 24 }
    rendered1 := some 77, rendered2 := some 39, rendered3 := some 19
    rotationAngle := 45 }

/-- `S1` with circle_2 grown to `n` px (its limits not refreshed, exactly as
`handleCircle2SizeChange` leaves them). -/
def c2grown (n : ℚ) : CrosshairState :=
  { S1 with circle2 := { currentSize := n, minSize := 34, maxSize := 57 }
            rendered2 := some n }

/-- The state after the claim C2 counterexample sequence: circle_1 shrunk
to 72px while circle_2 sits at 57px. -/
def S6 : CrosshairState :=
  { isVisible := false
    circle1Visible := true, circle2Visible := false, circle3Visible := false
    isMiddleMouseDown := false
    centerOffsetX := 0, centerOffsetY := 0
    circle1 := { currentSize := 72, minSize := 77, maxSize := 98 }
    circle2 := { currentSize := 57, minSize := 34, maxSize := 52 }
    circle3 := { currentSize := 19, minSize := 20, maxSize := 42 }
    rendered1 := some 72, rendered2 := some 57, rendered3 := some 19
    rotationAngle := 45 }

/-- Claim C2 counterexample operation sequence: initial layout in a 100x100
container, four wheel steps growing circle_2 to its 57px limit, then one
wheel step shrinking circle_1. -/
def claim2CexOps : List CircleOp :=
  [.resize 100 100,
   .circle2Change 100 100 (-1), .circle2Change 100 100 (-1),
   .circle2Change 100 100 (-1), .circle2Change 100 100 (-1),
   .circle1Change 100 100 1]

/-- Camera environment in which the user denies camera permission and no
devices are listed. -/
def envDenied : CameraEnv :=
  { mediaDevicesSupported := true
    getUserMediaResult := .error (.err "NotAllowedError")
    enumerateResult := .ok [] }

/-- A wheel environment with no control icons, a 100x100 container at the
viewport origin, and the pointer at (85, 85) scrolling down. -/
def plainEnv : WheelEnv :=
  { offsetWidth := 100, offsetHeight := 100
    clientWidth := 100, clientHeight := 100
    rectLeft := 0, rectTop := 0, rectWidth := 100, rectHeight := 100
    clientX := 85, clientY := 85, deltaY := 1
    rotationIconRect := none, resetIconRect := none
    toggle1IconRect := none, toggle2IconRect := none, toggle3IconRect := none }

/-- `plainEnv` with the circle_2 toggle icon occupying [80,90]x[80,90], so
that the pointer at (85,85) hovers over it. -/
def toggle2Env : WheelEnv :=
  { plainEnv with toggle2IconRect := some { left := 80, right := 90, top := 80, bottom := 90 } }

/-- A visible crosshair state with circle_2 shown at 40px (radius 20) and
circle_1 at 77px, centered in the container. -/
def visibleCrosshair : CrosshairState :=
  { S1 with isVisible := true, circle2Visible := true, rendered2 := some 40
            circle2 := { currentSize := 40, minSize := 34, maxSize := 57 } }

/-! ## Specification predicates -/

/-- Scale-range invariant of claim C1. -/
def ZoomScaleInv (z : ZoomState) : Prop :=
  z.minScale = 1 ∧ z.maxScale = 5 ∧ 1 ≤ z.scale ∧ z.scale ≤ 5

/-- The three translation-changing operations of claim C9. -/
inductive PanOp where
  | wheelZoom (env : WheelEnv)
  | wheelCross (env : WheelEnv)
  | mouseMove (env : WheelEnv)

def PanOp.apply : PanOp → ZoomState → ZoomState
  | .wheelZoom env, z => z.handleWheel env
  | .wheelCross env, z => z.handleWheelForCrosshair env
  | .mouseMove env, z => z.handleMouseMove env

def PanOp.envOf : PanOp → WheelEnv
  | .wheelZoom env => env
  | .wheelCross env => env
  | .mouseMove env => env

/-- The wheel zoom guard passes (the stepped scale stays within limits), so
the handler runs to completion instead of returning early. -/
def wheelGuardPasses (env : WheelEnv) (z : ZoomState) : Prop :=
  ¬(z.scale + z.scaleStep * (if env.deltaY < 0 then 1 else -1) < z.minScale ∨
    z.maxScale < z.scale + z.scaleStep * (if env.deltaY < 0 then 1 else -1))

/-- A pan operation runs to completion: `handleWheel` needs zoom enabled
and a guard pass, `handleWheelForCrosshair` a guard pass, and
`handleMouseMove` an active drag. -/
def PanOp.completes : PanOp → ZoomState → Prop
  | .wheelZoom env, z => z.zoomEnabled = true ∧ wheelGuardPasses env z
  | .wheelCross env, z => wheelGuardPasses env z
  | .mouseMove _, z => z.isDragging = true

/-- A zoom state mid-drag, used as the claim C9 witness input. -/
def draggingState : ZoomState :=
  { ZoomState.init with isDragging := true, scale := 2, translateX := 500 }

/-- One claim C6 operation is safe when any values it writes unclamped are
themselves within bounds; only `applySettings` writes unclamped. -/
def argsInBounds (args : ApplyArgs) : Prop :=
  (match args.exposure with | some v => -3 ≤ v ∧ v ≤ 3 | none => True) ∧
  (match args.brightness with | some v => -100 ≤ v ∧ v ≤ 100 | none => True) ∧
  (match args.contrast with | some v => 0 ≤ v ∧ v ≤ 200 | none => True) ∧
  (match args.saturation with | some v => 0 ≤ v ∧ v ≤ 200 | none => True) ∧
  (match args.focus with | some v => 0 ≤ v ∧ v ≤ 100 | none => True)

def exposureOpSafe : ExposureOp → Prop
  | .applySettingsOp args => argsInBounds args
  | _ => True

/-- Claim C6 witness operation sequence. -/
def claim6WitnessOps : List ExposureOp :=
  [.applySettingsOp { exposure := some 2, brightness := none, contrast := none
                      saturation := none, focus := none, autoExposure := none },
   .setBrightnessOp 1000, .setAutoExposureOp true, .autoAdjustOp 50 1 0]

/-- Claim C6 counterexample argument: `applySettings` with an exposure of
999, far outside [-3, 3]. -/
def hugeExposureArgs : ApplyArgs :=
  { exposure := some 999, brightness := none, contrast := none
    saturation := none, focus := none, autoExposure := none }

end EasyCollimator

namespace EasyCollimator

/-! # Theorems -/

/-! ## Generic clamp facts -/

lemma clamp_bounds (lo hi x : ℚ) (h : lo ≤ hi) :
    lo ≤ max lo (min hi x) ∧ max lo (min hi x) ≤ hi :=
  ⟨le_max_left _ _, max_le h (min_le_left _ _)⟩

lemma abs_clamp_le (m x : ℚ) (hm : 0 ≤ m) : |max (-m) (min m x)| ≤ m := by
  rw [abs_le]
  exact ⟨le_max_left _ _, max_le (by linarith) (min_le_left _ _)⟩

/-! ## ZoomController lemmas -/

lemma constrainTranslation_scale (W H : ℚ) (z : ZoomState) :
    (constrainTranslation W H z).scale = z.scale := rfl

lemma constrainTranslation_minScale (W H : ℚ) (z : ZoomState) :
    (constrainTranslation W H z).minScale = z.minScale := rfl

lemma constrainTranslation_maxScale (W H : ℚ) (z : ZoomState) :
    (constrainTranslation W H z).maxScale = z.maxScale := rfl

/-- `constrainTranslation` bounds the translation by the zoomed overflow in
each axis. -/
lemma constrainTranslation_bounds (W H : ℚ) (z : ZoomState) :
    |(constrainTranslation W H z).translateX| ≤ max 0 ((z.scale - 1) * W / 2) ∧
    |(constrainTranslation W H z).translateY| ≤ max 0 ((z.scale - 1) * H / 2) := by
  have hx : (W * z.scale - W) / 2 = (z.scale - 1) * W / 2 := by ring
  have hy : (H * z.scale - H) / 2 = (z.scale - 1) * H / 2 := by ring
  constructor
  · simpa [constrainTranslation, hx] using
      abs_clamp_le (max 0 ((z.scale - 1) * W / 2)) z.translateX (le_max_left _ _)
  · simpa [constrainTranslation, hy] using
      abs_clamp_le (max 0 ((z.scale - 1) * H / 2)) z.translateY (le_max_left _ _)

/-- `handleWheelForCrosshair` runs the `handleWheel` zoom math with the
container center substituted for the mouse position. -/
lemma handleWheelForCrosshair_eq_center (env : WheelEnv) (z : ZoomState) :
    z.handleWheelForCrosshair env =
      z.handleWheelZoomPath
        { env with clientX := env.rectLeft + env.offsetWidth / 2
                   clientY := env.rectTop + env.offsetHeight / 2 } := by
  unfold ZoomState.handleWheelForCrosshair ZoomState.handleWheelZoomPath
  dsimp only
  have hx : env.rectLeft + env.offsetWidth / 2 - env.rectLeft = env.offsetWidth / 2 := by
    ring
  have hy : env.rectTop + env.offsetHeight / 2 - env.rectTop = env.offsetHeight / 2 := by
    ring
  rw [hx, hy]

lemma zoomPath_inv (env : WheelEnv) (z : ZoomState) (h : ZoomScaleInv z) :
    ZoomScaleInv (z.handleWheelZoomPath env) := by
  obtain ⟨h1, h2, h3, h4⟩ := h
  unfold ZoomState.handleWheelZoomPath
  dsimp only
  set d : ℚ := if env.deltaY < 0 then (1 : ℚ) else -1 with hd
  split_ifs with hg
  · exact ⟨h1, h2, h3, h4⟩
  · push_neg at hg
    refine ⟨h1, h2, ?_, ?_⟩
    · rw [constrainTranslation_scale]
      dsimp only
      rw [← h1]
      exact hg.1
    · rw [constrainTranslation_scale]
      dsimp only
      rw [← h2]
      exact hg.2

lemma setZoom_scale (env : WheelEnv) (z : ZoomState) (scaleArg : ℚ)
    (cx cy : Option ℚ) :
    (z.setZoom env scaleArg cx cy).scale =
      max z.minScale (min z.maxScale scaleArg) := by
  unfold ZoomState.setZoom
  cases cx <;> cases cy <;> rfl

lemma setZoom_minScale (env : WheelEnv) (z : ZoomState) (scaleArg : ℚ)
    (cx cy : Option ℚ) :
    (z.setZoom env scaleArg cx cy).minScale = z.minScale := by
  unfold ZoomState.setZoom
  cases cx <;> cases cy <;> rfl

lemma setZoom_maxScale (env : WheelEnv) (z : ZoomState) (scaleArg : ℚ)
    (cx cy : Option ℚ) :
    (z.setZoom env scaleArg cx cy).maxScale = z.maxScale := by
  unfold ZoomState.setZoom
  cases cx <;> cases cy <;> rfl

lemma setZoom_inv (env : WheelEnv) (z : ZoomState) (scaleArg : ℚ)
    (cx cy : Option ℚ) (h : ZoomScaleInv z) :
    ZoomScaleInv (z.setZoom env scaleArg cx cy) := by
  obtain ⟨h1, h2, h3, h4⟩ := h
  have hc := clamp_bounds z.minScale z.maxScale scaleArg (by rw [h1, h2]; norm_num)
  refine ⟨setZoom_minScale env z scaleArg cx cy ▸ h1,
          setZoom_maxScale env z scaleArg cx cy ▸ h2, ?_, ?_⟩
  · rw [setZoom_scale, ← h1]; exact hc.1
  · rw [setZoom_scale, ← h2]; exact hc.2

lemma zoomOp_inv (op : ZoomOp) (z : ZoomState) (h : ZoomScaleInv z) :
    ZoomScaleInv (op.apply z) := by
  obtain ⟨h1, h2, h3, h4⟩ := h
  cases op with
  | wheel env =>
      simp only [ZoomOp.apply, ZoomState.handleWheel]
      split_ifs with he
      · exact zoomPath_inv env z ⟨h1, h2, h3, h4⟩
      · exact ⟨h1, h2, h3, h4⟩
  | wheelForCrosshair env =>
      simp only [ZoomOp.apply]
      rw [handleWheelForCrosshair_eq_center]
      exact zoomPath_inv _ z ⟨h1, h2, h3, h4⟩
  | setZoomTo env s cx cy => exact setZoom_inv env z s cx cy ⟨h1, h2, h3, h4⟩
  | zoomInStep env cx cy => exact setZoom_inv env z _ cx cy ⟨h1, h2, h3, h4⟩
  | zoomOutStep env cx cy => exact setZoom_inv env z _ cx cy ⟨h1, h2, h3, h4⟩
  | resetZoomOp => exact ⟨h1, h2, by norm_num [ZoomOp.apply, ZoomState.resetZoom],
      by norm_num [ZoomOp.apply, ZoomState.resetZoom]⟩
  | enableZoomOp => exact ⟨h1, h2, h3, h4⟩
  | disableZoomOp => exact ⟨h1, h2, h3, h4⟩

lemma runZoomOps_inv (ops : List ZoomOp) (z : ZoomState) (h : ZoomScaleInv z) :
    ZoomScaleInv (runZoomOps ops z) := by
  induction ops generalizing z with
  | nil => exact h
  | cons op rest ih => exact ih (op.apply z) (zoomOp_inv op z h)

/-- C1.  With the default zoom limits (minScale 1, maxScale 5) and no call
to `setZoomLimits`, after any sequence of `handleWheel`,
`handleWheelForCrosshair`, `setZoom`, `zoomIn`, `zoomOut`, `resetZoom`
(`enableZoom`/`disableZoom` included so the wheel zoom path is reachable),
the stored scale lies within [1, 5]; moreover `handleWheel`'s zoom path
leaves the state unchanged whenever the stepped scale would leave
[minScale, maxScale], and `setZoom` clamps its argument into that range. -/
theorem claim1_zoom_scale_invariant :
    (∀ ops : List ZoomOp,
      1 ≤ (runZoomOps ops ZoomState.init).scale ∧
      (runZoomOps ops ZoomState.init).scale ≤ 5) ∧
    (∀ (env : WheelEnv) (z : ZoomState),
      (z.scale + z.scaleStep * (if env.deltaY < 0 then 1 else -1) < z.minScale ∨
       z.maxScale < z.scale + z.scaleStep * (if env.deltaY < 0 then 1 else -1)) →
      z.handleWheelZoomPath env = z) ∧
    (∀ (env : WheelEnv) (z : ZoomState) (scaleArg : ℚ) (cx cy : Option ℚ),
      (z.setZoom env scaleArg cx cy).scale =
        max z.minScale (min z.maxScale scaleArg)) := by
  refine ⟨?_, ?_, ?_⟩
  · intro ops
    have h := runZoomOps_inv ops ZoomState.init
      ⟨rfl, rfl, by norm_num [ZoomState.init], by norm_num [ZoomState.init]⟩
    exact ⟨h.2.2.1, h.2.2.2⟩
  · intro env z hg
    unfold ZoomState.handleWheelZoomPath
    dsimp only
    rw [if_pos hg]
  · intro env z scaleArg cx cy
    exact setZoom_scale env z scaleArg cx cy

/-- Witness for C1 at concrete inputs: a short operation sequence keeps the
scale in range, a wheel step below the minimum scale is a no-op, and
`setZoom 7` clamps to the stored limits. -/
theorem claim1_zoom_scale_invariant_witness :
    (1 ≤ (runZoomOps [.enableZoomOp, .wheel plainEnv, .setZoomTo plainEnv 7 none none]
            ZoomState.init).scale ∧
     (runZoomOps [.enableZoomOp, .wheel plainEnv, .setZoomTo plainEnv 7 none none]
            ZoomState.init).scale ≤ 5) ∧
    ZoomState.init.handleWheelZoomPath plainEnv = ZoomState.init ∧
    (ZoomState.init.setZoom plainEnv 7 none none).scale =
      max ZoomState.init.minScale (min ZoomState.init.maxScale 7) := by
  refine ⟨claim1_zoom_scale_invariant.1 _, ?_, claim1_zoom_scale_invariant.2.2 _ _ _ _ _⟩
  exact claim1_zoom_scale_invariant.2.1 plainEnv ZoomState.init
    (by norm_num [plainEnv, ZoomState.init])

/-! ## Claim C9: pan bounded by the zoomed overflow -/

lemma zoomPath_translate_bounds (env : WheelEnv) (z : ZoomState)
    (hg : wheelGuardPasses env z) :
    |(z.handleWheelZoomPath env).translateX| ≤
      max 0 (((z.handleWheelZoomPath env).scale - 1) * env.offsetWidth / 2) ∧
    |(z.handleWheelZoomPath env).translateY| ≤
      max 0 (((z.handleWheelZoomPath env).scale - 1) * env.offsetHeight / 2) := by
  unfold wheelGuardPasses at hg
  unfold ZoomState.handleWheelZoomPath
  dsimp only
  rw [if_neg hg]
  exact constrainTranslation_bounds env.offsetWidth env.offsetHeight _

/-- C9.  After every completed `handleWheel` (zoom enabled, guard passed),
`handleWheelForCrosshair` (guard passed), or `handleMouseMove` (while
dragging), the translation satisfies
`|translateX| <= max 0 ((scale - 1) * containerWidth / 2)` and likewise for
`translateY` with the container height, for any container dimensions and any
prior state, because each of these paths ends in `constrainTranslation`. -/
theorem claim9_pan_bounded_by_overflow (op : PanOp) (z : ZoomState)
    (h : op.completes z) :
    |(op.apply z).translateX| ≤
      max 0 (((op.apply z).scale - 1) * op.envOf.offsetWidth / 2) ∧
    |(op.apply z).translateY| ≤
      max 0 (((op.apply z).scale - 1) * op.envOf.offsetHeight / 2) := by
  cases op with
  | wheelZoom env =>
      obtain ⟨he, hg⟩ := h
      simp only [PanOp.apply, PanOp.envOf, ZoomState.handleWheel, he, if_true]
      exact zoomPath_translate_bounds env z hg
  | wheelCross env =>
      simp only [PanOp.apply, PanOp.envOf]
      rw [handleWheelForCrosshair_eq_center]
      exact zoomPath_translate_bounds _ z h
  | mouseMove env =>
      have hd : z.isDragging = true := h
      simp only [PanOp.apply, PanOp.envOf, ZoomState.handleMouseMove, hd, if_true]
      exact constrainTranslation_bounds env.offsetWidth env.offsetHeight _

/-- Witness for C9: a drag step from scale 2 with a wildly excessive
translation is clamped into the admissible band. -/
theorem claim9_pan_bounded_by_overflow_witness :
    (PanOp.mouseMove plainEnv).completes draggingState ∧
    |((PanOp.mouseMove plainEnv).apply draggingState).translateX| ≤
      max 0 ((((PanOp.mouseMove plainEnv).apply draggingState).scale - 1) *
        (PanOp.mouseMove plainEnv).envOf.offsetWidth / 2) ∧
    |((PanOp.mouseMove plainEnv).apply draggingState).translateY| ≤
      max 0 ((((PanOp.mouseMove plainEnv).apply draggingState).scale - 1) *
        (PanOp.mouseMove plainEnv).envOf.offsetHeight / 2) := by
  have h := claim9_pan_bounded_by_overflow (PanOp.mouseMove plainEnv) draggingState rfl
  exact ⟨rfl, h.1, h.2⟩

/-! ## Claim C2: the circle_2 / circle_1 margin -/

lemma updateCircleSizes_init_100 :
    updateCircleSizes 100 100 CrosshairState.init = S1 := by
  norm_num [updateCircleSizes, CrosshairState.init, S1, jsRound,
    circle1Percentage, circle2Percentage, circle3Percentage,
    circle1MarginFromCircle2, circle3MarginFromCircle2, circleBorderWidth,
    Int.floor_eq_iff]

lemma circle2_grow_39 : handleCircle2SizeChange 100 100 (-1) S1 = c2grown 44 := by
  norm_num [handleCircle2SizeChange, boundaryMaxDiameter, S1, c2grown]

lemma circle2_grow_44 :
    handleCircle2SizeChange 100 100 (-1) (c2grown 44) = c2grown 49 := by
  norm_num [handleCircle2SizeChange, boundaryMaxDiameter, S1, c2grown]

lemma circle2_grow_49 :
    handleCircle2SizeChange 100 100 (-1) (c2grown 49) = c2grown 54 := by
  norm_num [handleCircle2SizeChange, boundaryMaxDiameter, S1, c2grown]

lemma circle2_grow_54 :
    handleCircle2SizeChange 100 100 (-1) (c2grown 54) = c2grown 57 := by
  norm_num [handleCircle2SizeChange, boundaryMaxDiameter, S1, c2grown]

lemma circle1_shrink_77 : handleCircle1SizeChange 100 100 1 (c2grown 57) = S6 := by
  norm_num [handleCircle1SizeChange, boundaryMaxDiameter, updateCircleSizes,
    jsRound, circle1Percentage, circle2Percentage, circle3Percentage,
    circle1MarginFromCircle2, circle3MarginFromCircle2, circleBorderWidth,
    S1, c2grown, S6, Int.floor_eq_iff]

/-- Counterexample to C2 as stated: in a 100x100 container, grow circle_2
to its 57px limit with four wheel steps, then shrink circle_1 once.
`handleCircle2SizeChange` never refreshed circle_1's `minSize`, so circle_1
drops to 72px while circle_2 sits at 57px, violating
`circle_2 <= circle_1 - 20` (57 > 52). -/
theorem claim2_circle_margin_counterexample :
    ¬ ((runCircleOps claim2CexOps CrosshairState.init).circle2.currentSize ≤
       (runCircleOps claim2CexOps CrosshairState.init).circle1.currentSize - 20) := by
  have h0 : runCircleOps claim2CexOps CrosshairState.init =
      handleCircle1SizeChange 100 100 1
        (handleCircle2SizeChange 100 100 (-1)
          (handleCircle2SizeChange 100 100 (-1)
            (handleCircle2SizeChange 100 100 (-1)
              (handleCircle2SizeChange 100 100 (-1)
                (updateCircleSizes 100 100 CrosshairState.init))))) := rfl
  rw [h0, updateCircleSizes_init_100, circle2_grow_39, circle2_grow_44,
    circle2_grow_49, circle2_grow_54, circle1_shrink_77]
  norm_num [S6]

/-- C2 amended.  The margin is only enforced against the *stored* circle_2
limits: whenever the stored `circle2SizeControl.maxSize` is current (equal
to circle_1's `currentSize` minus the 20px margin, as `updateCircleSizes`
establishes) and at least the stored `minSize`, `handleCircle2SizeChange`
leaves circle_2's `currentSize` at most circle_1's `currentSize` minus 20.
The unconditional cross-operation invariant of the claim is false, per the
counterexample above: `handleCircle2SizeChange` does not
refresh circle_1's `minSize`, so a later `handleCircle1SizeChange` can
shrink circle_1 below circle_2 plus the margin, and `updateCircleSizes` on
small containers initializes the circles closer together than the margin. -/
theorem claim2_circle_margin_amended (W H deltaY : ℚ) (c : CrosshairState)
    (hmax : c.circle2.maxSize = c.circle1.currentSize - 20)
    (hmm : c.circle2.minSize ≤ c.circle2.maxSize) :
    (handleCircle2SizeChange W H deltaY c).circle2.currentSize ≤
      (handleCircle2SizeChange W H deltaY c).circle1.currentSize - 20 := by
  rw [hmax] at hmm
  have key : ∀ x : ℚ,
      max c.circle2.minSize
        (min (min c.circle2.maxSize (boundaryMaxDiameter W H c)) x) ≤
        c.circle1.currentSize - 20 := fun x =>
    max_le hmm (le_trans (le_trans (min_le_left _ _) (min_le_left _ _))
      (le_of_eq hmax))
  unfold handleCircle2SizeChange
  dsimp only
  split_ifs
  all_goals
    first
      | exact key _
      | (rename_i hch
         rw [not_not] at hch
         rw [← hch]
         exact key _)

/-- Witness for C2 amended: from the freshly laid-out 100x100 state, one
circle_2 growth step respects the margin. -/
theorem claim2_circle_margin_amended_witness :
    S1.circle2.maxSize = S1.circle1.currentSize - 20 ∧
    S1.circle2.minSize ≤ S1.circle2.maxSize ∧
    (handleCircle2SizeChange 100 100 (-1) S1).circle2.currentSize ≤
      (handleCircle2SizeChange 100 100 (-1) S1).circle1.currentSize - 20 := by
  refine ⟨by norm_num [S1], by norm_num [S1], ?_⟩
  exact claim2_circle_margin_amended 100 100 (-1) S1
    (by norm_num [S1]) (by norm_num [S1])

/-! ## Claim C3: the loadAvailableCameras fallback (code bug) -/

/-- C3 evaluation at the failing input.  When permission acquisition fails,
the catch block calls `this.loadCamerasWithFallback`, which is not a method
of `WebcamManager` (the defined method is `loadCamerasFallback`), so a
`TypeError` propagates to the caller instead of a recovered camera list —
even though the intended fallback would have produced a non-empty list. -/
theorem claim3_fallback_code_bug :
    loadAvailableCameras envDenied =
      .error (.typeError "this.loadCamerasWithFallback is not a function") ∧
    "loadCamerasWithFallback" ∉ webcamManagerMethods ∧
    loadCamerasFallback envDenied =
      [{ deviceId := "default", label := "Default Camera (Permission Required)"
         kind := "videoinput" }] :=
  ⟨rfl, by decide, rfl⟩

/-! ## Claim C5: getErrorMessage string matching -/

/-- C5.  `getErrorMessage` maps an error to user-facing text purely by the
error's name: the no-camera message exactly for `NotFoundError` and
`DevicesNotFoundError`, the access-denied message exactly for
`NotAllowedError` and `PermissionDeniedError`, the not-supported message
exactly for `NotSupportedError`, the in-use message exactly for
`NotReadableError` and `TrackStartError`, and the fixed unknown-error
message for every other name. -/
theorem claim5_get_error_message (name : String) :
    (getErrorMessage name =
        "No camera found. Please connect a camera and try again." ↔
      name = "NotFoundError" ∨ name = "DevicesNotFoundError") ∧
    (getErrorMessage name =
        "Camera access denied. Please allow camera permission and refresh the page." ↔
      name = "NotAllowedError" ∨ name = "PermissionDeniedError") ∧
    (getErrorMessage name = "Camera not supported by this browser." ↔
      name = "NotSupportedError") ∧
    (getErrorMessage name = "Camera is already in use by another application." ↔
      name = "NotReadableError" ∨ name = "TrackStartError") ∧
    (name ≠ "NotFoundError" → name ≠ "DevicesNotFoundError" →
     name ≠ "NotAllowedError" → name ≠ "PermissionDeniedError" →
     name ≠ "NotSupportedError" →
     name ≠ "NotReadableError" → name ≠ "TrackStartError" →
     getErrorMessage name = "Unknown camera error occurred.") := by
  unfold getErrorMessage
  split_ifs with h1 h2 h3 h4 <;> refine ⟨?_, ?_, ?_, ?_, ?_⟩ <;> simp_all
  all_goals casesm* _ ∨ _ <;> subst_vars <;> simp_all

/-- Witness for C5: an unlisted error name gets the unknown-error text. -/
theorem claim5_get_error_message_witness :
    getErrorMessage "SecurityError" = "Unknown camera error occurred." :=
  (claim5_get_error_message "SecurityError").2.2.2.2
    (by decide) (by decide) (by decide) (by decide) (by decide)
    (by decide) (by decide)

/-! ## Claim C7: stopWebcam -/

/-- C7.  `stopWebcam` stops every track of the currently held stream, sets
the stored stream to `null`, clears the video element's `srcObject`, sets
`isActive` to `false`, and returns `true`; with no held stream it still
clears `srcObject` and `isActive` and returns `true` (stopping no tracks). -/
theorem claim7_stop_webcam (s : WebcamState) :
    (stopWebcam s).1 = true ∧
    (stopWebcam s).2.1.stream = none ∧
    (stopWebcam s).2.1.srcObject = none ∧
    (stopWebcam s).2.1.isActive = false ∧
    (stopWebcam s).2.2 =
      (s.stream.getD []).map (fun t => { t with stopped := true }) ∧
    (∀ t ∈ (stopWebcam s).2.2, t.stopped = true) := by
  cases hs : s.stream with
  | none => simp [stopWebcam, hs]
  | some tracks =>
      refine ⟨?_, ?_, ?_, ?_, ?_, ?_⟩ <;>
        simp [stopWebcam, hs, List.mem_map]

/-- Witness for C7 at a concrete two-track stream. -/
theorem claim7_stop_webcam_witness :
    (stopWebcam { stream := some [{ id := 1, stopped := false },
                                  { id := 2, stopped := false }]
                  srcObject := some [{ id := 1, stopped := false }]
                  isActive := true }).1 = true ∧
    (stopWebcam { stream := some [{ id := 1, stopped := false },
                                  { id := 2, stopped := false }]
                  srcObject := some [{ id := 1, stopped := false }]
                  isActive := true }).2.1.stream = none ∧
    (stopWebcam { stream := some [{ id := 1, stopped := false },
                                  { id := 2, stopped := false }]
                  srcObject := some [{ id := 1, stopped := false }]
                  isActive := true }).2.1.srcObject = none ∧
    (stopWebcam { stream := some [{ id := 1, stopped := false },
                                  { id := 2, stopped := false }]
                  srcObject := some [{ id := 1, stopped := false }]
                  isActive := true }).2.1.isActive = false ∧
    (stopWebcam { stream := some [{ id := 1, stopped := false },
                                  { id := 2, stopped := false }]
                  srcObject := some [{ id := 1, stopped := false }]
                  isActive := true }).2.2 =
      ((some [{ id := 1, stopped := false }, { id := 2, stopped := false }] :
          Option (List MediaTrack)).getD []).map
        (fun t => { t with stopped := true }) ∧
    (∀ t ∈ (stopWebcam { stream := some [{ id := 1, stopped := false },
                                         { id := 2, stopped := false }]
                         srcObject := some [{ id := 1, stopped := false }]
                         isActive := true }).2.2, t.stopped = true) :=
  claim7_stop_webcam _

/-! ## Claim C8: localStorage round-trip -/

/-- C8.  For any settings state, after `saveSettings` writes under the
`webcamExposureSettings` key, a subsequent `loadSettings` with no
intervening writes to that key returns `true` and restores a settings
object equal to the one saved, whatever settings were in memory and
whatever else the store held. -/
theorem claim8_settings_roundtrip (s base : ExposureSettings)
    (store : Storage) :
    loadSettings (saveSettings s store) base = (true, s) := by
  show loadSettings (store.setItem "webcamExposureSettings" (settingsToJson s))
    base = (true, s)
  unfold loadSettings Storage.setItem
  simp only [if_pos rfl]
  unfold argsOfJson settingsToJson applySettings jsonLookupNum jsonLookupBool
  rfl

/-! ## Claim C10: rotation normalization -/

lemma jsTrunc_of_nonneg (q : ℚ) (h : 0 ≤ q) : jsTrunc q = ⌊q⌋ := by
  unfold jsTrunc
  rw [if_neg (not_lt.mpr h)]

lemma jsTrunc_of_neg (q : ℚ) (h : q < 0) : jsTrunc q = ⌈q⌉ := by
  unfold jsTrunc
  rw [if_pos h, Int.floor_neg, neg_neg]

/-- For a nonnegative dividend the JavaScript remainder lies in `[0, b)`. -/
lemma jsMod_mem_of_nonneg (a b : ℚ) (hb : 0 < b) (ha : 0 ≤ a) :
    0 ≤ jsMod a b ∧ jsMod a b < b := by
  unfold jsMod
  rw [jsTrunc_of_nonneg _ (div_nonneg ha hb.le)]
  have h1 : ((⌊a / b⌋ : ℤ) : ℚ) ≤ a / b := Int.floor_le _
  have h2 : a / b < (⌊a / b⌋ : ℤ) + 1 := Int.lt_floor_add_one _
  have hba : b * (a / b) = a := by field_simp
  constructor <;> nlinarith

/-- For a negative dividend the JavaScript remainder lies in `(-b, 0]`. -/
lemma jsMod_mem_of_neg (a b : ℚ) (hb : 0 < b) (ha : a < 0) :
    -b < jsMod a b ∧ jsMod a b ≤ 0 := by
  unfold jsMod
  rw [jsTrunc_of_neg _ (div_neg_of_neg_of_pos ha hb)]
  have h1 : (a / b : ℚ) ≤ ((⌈a / b⌉ : ℤ) : ℚ) := Int.le_ceil _
  have h2 : ((⌈a / b⌉ : ℤ) : ℚ) < a / b + 1 := Int.ceil_lt_add_one _
  have hba : b * (a / b) = a := by field_simp
  constructor <;> nlinarith

/-- `((a % 360) + 360) % 360` lands in `[0, 360)` for every rational. -/
lemma jsMod360_range (a : ℚ) :
    0 ≤ jsMod (jsMod a 360 + 360) 360 ∧ jsMod (jsMod a 360 + 360) 360 < 360 := by
  rcases le_or_lt 0 a with ha | ha
  · have h1 := jsMod_mem_of_nonneg a 360 (by norm_num) ha
    exact jsMod_mem_of_nonneg _ 360 (by norm_num) (by linarith [h1.1])
  · have h1 := jsMod_mem_of_neg a 360 (by norm_num) ha
    exact jsMod_mem_of_nonneg _ 360 (by norm_num) (by linarith [h1.1])

/-- C10.  For every finite starting angle and nonzero wheel `deltaY`,
`handleRotation` moves the angle by the fine step (1 degree) when the
fine-control button is held and by the normal step (1.25 degrees)
otherwise — adding the step for positive `deltaY` (clockwise) and
subtracting it for negative `deltaY` — and stores the result normalized by
`((angle % 360) + 360) % 360`, which always lies in `[0, 360)`. -/
theorem claim10_rotation_normalized (c : CrosshairState) (deltaY : ℚ)
    (h : deltaY ≠ 0) :
    (handleRotation deltaY c).rotationAngle =
      jsMod (jsMod (c.rotationAngle +
        (if 0 < deltaY then 1 else -1) *
          (if c.isMiddleMouseDown then fineRotationStep else rotationStep))
        360 + 360) 360 ∧
    0 ≤ (handleRotation deltaY c).rotationAngle ∧
    (handleRotation deltaY c).rotationAngle < 360 := by
  refine ⟨rfl, ?_, ?_⟩
  · exact (jsMod360_range _).1
  · exact (jsMod360_range _).2

/-- Witness for C10: one clockwise step from the initial 45-degree state. -/
theorem claim10_rotation_normalized_witness :
    (3 : ℚ) ≠ 0 ∧
    (0 ≤ (handleRotation 3 CrosshairState.init).rotationAngle ∧
     (handleRotation 3 CrosshairState.init).rotationAngle < 360) :=
  ⟨by norm_num,
   (claim10_rotation_normalized CrosshairState.init 3 (by norm_num)).2⟩

/-! ## Claim C6: exposure setting bounds -/

lemma setExposure_inv (v : ℚ) (s : ExposureSettings) (h : settingsInBounds s) :
    settingsInBounds (setExposure v s) := by
  obtain ⟨_, _, hb1, hb2, hc1, hc2, hs1, hs2, hf1, hf2⟩ := h
  have hc := clamp_bounds (-3) 3 v (by norm_num)
  unfold setExposure
  dsimp only
  split_ifs <;>
    exact ⟨hc.1, hc.2, hb1, hb2, hc1, hc2, hs1, hs2, hf1, hf2⟩

lemma setBrightness_inv (v : ℚ) (s : ExposureSettings)
    (h : settingsInBounds s) : settingsInBounds (setBrightness v s) := by
  obtain ⟨he1, he2, _, _, hc1, hc2, hs1, hs2, hf1, hf2⟩ := h
  have hc := clamp_bounds (-100) 100 (jsTrunc v : ℚ) (by norm_num)
  unfold setBrightness
  dsimp only
  split_ifs <;>
    exact ⟨he1, he2, hc.1, hc.2, hc1, hc2, hs1, hs2, hf1, hf2⟩

lemma setContrast_inv (v : ℚ) (s : ExposureSettings) (h : settingsInBounds s) :
    settingsInBounds (setContrast v s) := by
  obtain ⟨he1, he2, hb1, hb2, _, _, hs1, hs2, hf1, hf2⟩ := h
  have hc := clamp_bounds 0 200 (jsTrunc v : ℚ) (by norm_num)
  unfold setContrast
  dsimp only
  split_ifs <;>
    exact ⟨he1, he2, hb1, hb2, hc.1, hc.2, hs1, hs2, hf1, hf2⟩

lemma setSaturation_inv (v : ℚ) (s : ExposureSettings)
    (h : settingsInBounds s) : settingsInBounds (setSaturation v s) := by
  obtain ⟨he1, he2, hb1, hb2, hc1, hc2, _, _, hf1, hf2⟩ := h
  have hc := clamp_bounds 0 200 (jsTrunc v : ℚ) (by norm_num)
  exact ⟨he1, he2, hb1, hb2, hc1, hc2, hc.1, hc.2, hf1, hf2⟩

lemma setFocus_inv (v : ℚ) (s : ExposureSettings) (h : settingsInBounds s) :
    settingsInBounds (setFocus v s) := by
  obtain ⟨he1, he2, hb1, hb2, hc1, hc2, hs1, hs2, _, _⟩ := h
  have hc := clamp_bounds 0 100 (jsTrunc v : ℚ) (by norm_num)
  exact ⟨he1, he2, hb1, hb2, hc1, hc2, hs1, hs2, hc.1, hc.2⟩

lemma optionField_mem (o : Option ℚ) (lo hi base : ℚ)
    (ho : match o with | some v => lo ≤ v ∧ v ≤ hi | none => True)
    (hb1 : lo ≤ base) (hb2 : base ≤ hi) :
    lo ≤ o.getD base ∧ o.getD base ≤ hi := by
  cases o with
  | some v => exact ho
  | none => exact ⟨hb1, hb2⟩

lemma exposureOp_inv (op : ExposureOp) (s : ExposureSettings)
    (hop : exposureOpSafe op) (h : settingsInBounds s) :
    settingsInBounds (op.apply s) := by
  cases op with
  | setExposureOp v => exact setExposure_inv v s h
  | setBrightnessOp v => exact setBrightness_inv v s h
  | setContrastOp v => exact setContrast_inv v s h
  | setSaturationOp v => exact setSaturation_inv v s h
  | setFocusOp v => exact setFocus_inv v s h
  | resetExposureOp =>
      simp only [ExposureOp.apply, resetExposure]
      norm_num [settingsInBounds]
  | setAutoExposureOp b =>
      obtain ⟨he1, he2, hb1, hb2, hc1, hc2, hs1, hs2, hf1, hf2⟩ := h
      simp only [ExposureOp.apply, setAutoExposure, performSoftwareAutoAdjustment]
      split_ifs
      · exact ⟨by norm_num, by norm_num, by norm_num, by norm_num, by norm_num,
               by norm_num, by norm_num, by norm_num, hf1, hf2⟩
      · exact ⟨he1, he2, hb1, hb2, hc1, hc2, hs1, hs2, hf1, hf2⟩
  | autoAdjustOp avg dark bright =>
      obtain ⟨he1, he2, hb1, hb2, hc1, hc2, hs1, hs2, hf1, hf2⟩ := h
      simp only [ExposureOp.apply, intelligentExposureAdjustment]
      split_ifs
      all_goals refine ⟨?_, ?_, ?_, ?_, ?_, ?_, ?_, ?_, ?_, ?_⟩
      all_goals try simp only [le_max_iff, max_le_iff, le_min_iff, min_le_iff]
      all_goals
        first
          | linarith
          | (left ; linarith)
          | (right ; linarith)
          | (constructor <;> first | linarith | (left ; linarith) | (right ; linarith))
  | applySettingsOp args =>
      obtain ⟨he1, he2, hb1, hb2, hc1, hc2, hs1, hs2, hf1, hf2⟩ := h
      obtain ⟨ha1, ha2, ha3, ha4, ha5⟩ := hop
      have k1 := optionField_mem args.exposure (-3) 3 s.exposure ha1 he1 he2
      have k2 := optionField_mem args.brightness (-100) 100 s.brightness ha2 hb1 hb2
      have k3 := optionField_mem args.contrast 0 200 s.contrast ha3 hc1 hc2
      have k4 := optionField_mem args.saturation 0 200 s.saturation ha4 hs1 hs2
      have k5 := optionField_mem args.focus 0 100 s.focus ha5 hf1 hf2
      exact ⟨k1.1, k1.2, k2.1, k2.2, k3.1, k3.2, k4.1, k4.2, k5.1, k5.2⟩
  | increaseExposureOp step => exact setExposure_inv _ s h
  | decreaseExposureOp step => exact setExposure_inv _ s h
  | increaseBrightnessOp step => exact setBrightness_inv _ s h
  | decreaseBrightnessOp step => exact setBrightness_inv _ s h

lemma runExposureOps_inv (ops : List ExposureOp) (s : ExposureSettings)
    (hops : ∀ op ∈ ops, exposureOpSafe op) (h : settingsInBounds s) :
    settingsInBounds (runExposureOps ops s) := by
  induction ops generalizing s with
  | nil => exact h
  | cons op rest ih =>
      exact ih (op.apply s) (fun o ho => hops o (List.mem_cons_of_mem op ho))
        (exposureOp_inv op s (hops op (List.mem_cons_self op rest)) h)

/-- Counterexample to C6 as stated: `applySettings` copies its argument
without any clamping, so `applySettings { exposure: 999 }` stores an
exposure of 999, far outside [-3, 3]. -/
theorem claim6_bounds_counterexample :
    (runExposureOps [.applySettingsOp hugeExposureArgs]
        ExposureSettings.default).exposure = 999 ∧
    ¬ settingsInBounds
        (runExposureOps [.applySettingsOp hugeExposureArgs]
          ExposureSettings.default) := by
  constructor
  · rfl
  · intro hb
    have := hb.2.1
    norm_num [runExposureOps, ExposureOp.apply, applySettings,
      hugeExposureArgs, ExposureSettings.default] at this

/-- C6 amended.  Every stored setting stays within its per-control bounds
(exposure [-3,3], brightness [-100,100], contrast [0,200], saturation
[0,200], focus [0,100]) after every public settings operation — the
clamping setters, `resetExposure`, `setAutoExposure`, the automatic
adjustment path, and the step helpers — for arbitrary numeric inputs;
`applySettings` (and hence `loadSettings`) preserves the bounds only when
the values it copies are themselves within bounds, because it merges its
argument into the settings without clamping. -/
theorem claim6_bounds_amended (ops : List ExposureOp)
    (hops : ∀ op ∈ ops, exposureOpSafe op) :
    settingsInBounds (runExposureOps ops ExposureSettings.default) :=
  runExposureOps_inv ops ExposureSettings.default hops
    (by norm_num [ExposureSettings.default, settingsInBounds])

/-- Witness for C6 amended: an in-bounds `applySettings`, a wild
`setBrightness 1000`, enabling auto-exposure, and one automatic adjustment
step on a dark frame all keep the settings in bounds. -/
theorem claim6_bounds_amended_witness :
    (∀ op ∈ claim6WitnessOps, exposureOpSafe op) ∧
    settingsInBounds (runExposureOps claim6WitnessOps ExposureSettings.default) := by
  have hops : ∀ op ∈ claim6WitnessOps, exposureOpSafe op := by
    intro op hop
    fin_cases hop <;> norm_num [exposureOpSafe, argsInBounds, hugeExposureArgs]
  exact ⟨hops, claim6_bounds_amended claim6WitnessOps hops⟩

/-! ## Claim C4: wheel-event mode switching -/

/-- Counterexample to C4 as stated: with the crosshair visible and the
pointer hovering the circle_2 toggle icon far away from the crosshair
center (outside every visible circle), the wheel event still resizes
circle_2, so "resizes a circle exactly when ... the pointer distance from
the crosshair center is within a visible circle's radius" fails. -/
theorem claim4_mode_switch_counterexample :
    ZoomState.init.zoomEnabled = false ∧
    visibleCrosshair.isVisible = true ∧
    (combinedHandleWheel toggle2Env visibleCrosshair ZoomState.init).2.2 =
      .resize2 ∧
    (combinedHandleWheel toggle2Env visibleCrosshair ZoomState.init).2.2.isResize
      = true ∧
    insideSomeVisibleCircle toggle2Env visibleCrosshair = false := by
  have hact : (combinedHandleWheel toggle2Env visibleCrosshair
      ZoomState.init).2.2 = .resize2 := by
    norm_num [combinedHandleWheel, handleWheelEvent, ZoomState.init,
      isMouseOverIcon, toggle2Env, plainEnv, visibleCrosshair, S1]
  refine ⟨rfl, rfl, hact, by rw [hact]; rfl, ?_⟩
  norm_num [insideSomeVisibleCircle, mouseDistSq, sqrtLE, toggle2Env, plainEnv,
    visibleCrosshair, S1, CrosshairState.getCircle1Radius,
    CrosshairState.getCircle2Radius, CrosshairState.getCircle3Radius, jsTrunc,
    Int.floor_eq_iff]

/-- The crosshair wheel handler either leaves the zoom state untouched, or
takes the delegation branch and hands the zoom state to
`handleWheelForCrosshair`. -/
lemma handleWheelEvent_z_cases (env : WheelEnv) (c : CrosshairState)
    (z : ZoomState) :
    (handleWheelEvent env c z).2.1 = z ∨
    ((handleWheelEvent env c z).2.1 = z.handleWheelForCrosshair env ∧
     (handleWheelEvent env c z).2.2 = .zoomDelegated) := by
  unfold handleWheelEvent
  dsimp only
  repeat
    first
      | (left ; rfl)
      | (right ; exact ⟨rfl, rfl⟩)
      | split

/-- C4 amended.  When `zoomEnabled` is false, `handleWheel` changes none of
scale/translateX/translateY itself and forwards the event to the crosshair
controller; the crosshair handler leaves the zoom state untouched except on
its delegation branch; *when the pointer is not over any control icon*, it
resizes a circle exactly when the crosshair is visible and the pointer
distance from the (offset) crosshair center is within a visible circle's
radius, and otherwise delegates to `handleWheelForCrosshair`, which zooms
about the container center rather than the mouse position.  (As stated the
claim is false: hovering a toggle icon of a visible circle also resizes it,
regardless of the pointer distance, per the counterexample above.) -/
theorem claim4_mode_switch_amended (env : WheelEnv) (c : CrosshairState)
    (z : ZoomState) (hz : z.zoomEnabled = false) :
    combinedHandleWheel env c z = handleWheelEvent env c z ∧
    ((handleWheelEvent env c z).2.2 ≠ .zoomDelegated →
      (handleWheelEvent env c z).2.1 = z) ∧
    (overAnyIcon env = false →
      ((handleWheelEvent env c z).2.2.isResize = true ↔
        c.isVisible = true ∧ insideSomeVisibleCircle env c = true)) ∧
    (overAnyIcon env = false → c.isVisible = true →
      insideSomeVisibleCircle env c = false →
      (handleWheelEvent env c z).2.2 = .zoomDelegated ∧
      (handleWheelEvent env c z).2.1 = z.handleWheelForCrosshair env) ∧
    z.handleWheelForCrosshair env =
      z.handleWheelZoomPath
        { env with clientX := env.rectLeft + env.offsetWidth / 2
                   clientY := env.rectTop + env.offsetHeight / 2 } := by
  refine ⟨by simp [combinedHandleWheel, hz], ?_, ?_, ?_,
          handleWheelForCrosshair_eq_center env z⟩
  · intro hne
    rcases handleWheelEvent_z_cases env c z with h | h
    · exact h
    · exact absurd h.2 hne
  · intro hicons
    simp only [overAnyIcon, Bool.or_eq_false_iff] at hicons
    obtain ⟨⟨⟨⟨hrot, hres⟩, ht1⟩, ht2⟩, ht3⟩ := hicons
    by_cases hvis : c.isVisible = true
    · cases hb3 : sqrtLE (mouseDistSq env c) c.getCircle3Radius &&
          c.circle3Visible <;>
      cases hb2 : sqrtLE (mouseDistSq env c) c.getCircle2Radius &&
          c.circle2Visible <;>
      cases hb1 : sqrtLE (mouseDistSq env c) c.getCircle1Radius &&
          c.circle1Visible <;>
        simp [handleWheelEvent, insideSomeVisibleCircle, WheelAction.isResize,
          hvis, hrot, hres, ht1, ht2, ht3, hb3, hb2, hb1]
    · simp only [Bool.not_eq_true] at hvis
      simp [handleWheelEvent, insideSomeVisibleCircle, WheelAction.isResize,
        hvis, hrot, hres, ht1, ht2, ht3]
  · intro hicons hvis hinside
    simp only [overAnyIcon, Bool.or_eq_false_iff] at hicons
    obtain ⟨⟨⟨⟨hrot, hres⟩, ht1⟩, ht2⟩, ht3⟩ := hicons
    simp only [insideSomeVisibleCircle, Bool.or_eq_false_iff] at hinside
    obtain ⟨⟨hb3, hb2⟩, hb1⟩ := hinside
    simp [handleWheelEvent, hvis, hrot, hres, ht1, ht2, ht3, hb3, hb2, hb1]

/-- Witness for C4 amended at a concrete state: with no control icons and
the pointer outside all visible circles, the forwarded event is delegated
to `handleWheelForCrosshair`. -/
theorem claim4_mode_switch_amended_witness :
    ZoomState.init.zoomEnabled = false ∧
    combinedHandleWheel plainEnv visibleCrosshair ZoomState.init =
      handleWheelEvent plainEnv visibleCrosshair ZoomState.init ∧
    ((handleWheelEvent plainEnv visibleCrosshair ZoomState.init).2.2 =
        .zoomDelegated ∧
     (handleWheelEvent plainEnv visibleCrosshair ZoomState.init).2.1 =
        ZoomState.init.handleWheelForCrosshair plainEnv) := by
  have h := claim4_mode_switch_amended plainEnv visibleCrosshair ZoomState.init rfl
  refine ⟨rfl, h.1,
    h.2.2.2.1 (by simp [overAnyIcon, isMouseOverIcon, plainEnv]) rfl ?_⟩
  norm_num [insideSomeVisibleCircle, mouseDistSq, sqrtLE, plainEnv,
    visibleCrosshair, S1, CrosshairState.getCircle1Radius,
    CrosshairState.getCircle2Radius, CrosshairState.getCircle3Radius, jsTrunc,
    Int.floor_eq_iff]

end EasyCollimator
